import Mathlib

set_option maxRecDepth 8192

/-
Shallow embedding of the BusTub buffer pool manager.

The repository holds two variants of BufferPoolManager::NewPage:
the complete implementation in src/unnamed/part_000 (together with
FetchPage, UnpinPage, FlushPage, FlushAllPages, DeletePage) and a
work-in-progress variant in src/src/buffer/buffer_pool_manager.cpp
whose other operations are TODO stubs.  The LRU-K replacement policy
(class LRUKReplacer) is not under src/, so it is modelled from the
specification (section 4.2).  The latch acquire/release calls are
dropped: the embedding gives the single-threaded semantics of each
operation's critical section.
-/

/-- BUSTUB_PAGE_SIZE: the fixed page size in bytes (common/config.h, not under src/). -/
def pageSize : Nat := 4096

/-- INVALID_PAGE_ID sentinel (common/config.h, not under src/). -/
def invalidPageId : Int := -1

/-- page bytes all zero, as produced by Page::ResetMemory. -/
def zeroPage : List Int := List.replicate pageSize 0

/-- one buffer frame: the Page fields page_id_, pin_count_, is_dirty_ and data_. -/
structure Frame where
  pageId : Int
  pinCount : Int
  isDirty : Bool
  data : List Int
deriving DecidableEq

/-- a freshly constructed Page: no bound page, unpinned, clean, zeroed bytes. -/
def initFrame : Frame := ⟨invalidPageId, 0, false, zeroPage⟩

instance : Inhabited Frame := ⟨initFrame⟩

/-- Modelled from the spec: state of the LRU-K Replacement Policy (class
    LRUKReplacer, whose code is not under src/).  Per tracked frame the at most K
    most recent access timestamps (most recent first), the frames currently marked
    evictable, the logical clock, and the parameter K. -/
structure ReplacerState where
  k : Nat
  time : Nat
  hist : List (Nat × List Nat)
  evictable : List Nat
deriving DecidableEq

/-- Modelled from the spec: the recorded access history of a frame (empty when the
    frame is untracked; the manager code under src/ never records accesses). -/
def histOf (r : ReplacerState) (f : Nat) : List Nat :=
  ((r.hist.find? (fun e => e.1 == f)).map (fun e => e.2)).getD []

/-- Modelled from the spec: RecordAccess appends the current logical timestamp to
    the frame's history, retaining at most the K most recent entries. -/
def recordAccess (r : ReplacerState) (f : Nat) : ReplacerState :=
  { r with time := r.time + 1,
           hist := (f, (r.time :: histOf r f).take r.k) :: r.hist.filter (fun e => e.1 != f) }

/-- Modelled from the spec: SetEvictable adds the frame to or removes it from the
    eligible-victim set. -/
def setEvictable (r : ReplacerState) (f : Nat) (b : Bool) : ReplacerState :=
  if b then
    if f ∈ r.evictable then r else { r with evictable := r.evictable ++ [f] }
  else
    { r with evictable := r.evictable.filter (fun g => g != f) }

/-- Modelled from the spec: backward K-distance of a frame; none encodes plus
    infinity (fewer than K recorded accesses). -/
def backDist (r : ReplacerState) (f : Nat) : Option Nat :=
  let h := histOf r f
  if h.length < r.k then none else some (r.time - h.getD (r.k - 1) 0)

/-- Modelled from the spec: the earliest (least recent) recorded access of a frame. -/
def earliestAccess (r : ReplacerState) (f : Nat) : Option Nat :=
  (histOf r f).getLast?

/-- Modelled from the spec: the classic LRU fallback ordering used to break ties —
    a never-accessed frame counts as least recently used, and equal candidates fall
    back to the smaller frame index so the choice is deterministic. -/
def lruBefore (r : ReplacerState) (a b : Nat) : Bool :=
  match earliestAccess r a, earliestAccess r b with
  | none, some _ => true
  | some _, none => false
  | none, none => decide (a < b)
  | some ea, some eb => if ea = eb then decide (a < b) else decide (ea < eb)

/-- Modelled from the spec: frame a is strictly preferred to frame b as the eviction
    victim — an infinite backward K-distance beats a finite one, a larger finite
    distance beats a smaller, and ties fall back to the LRU ordering. -/
def betterVictim (r : ReplacerState) (a b : Nat) : Bool :=
  match backDist r a, backDist r b with
  | none, some _ => true
  | some _, none => false
  | none, none => lruBefore r a b
  | some da, some db => if da = db then lruBefore r a b else decide (db < da)

/-- Modelled from the spec: scan the remaining candidates, keeping the preferred
    victim seen so far. -/
def pickBestFrom (r : ReplacerState) (c : Nat) : List Nat → Nat
  | [] => c
  | f :: rest => if betterVictim r f c then pickBestFrom r f rest else pickBestFrom r c rest

/-- Modelled from the spec: the preferred victim among a candidate list, none when
    there are no candidates. -/
def pickBest (r : ReplacerState) (l : List Nat) : Option Nat :=
  match l with
  | [] => none
  | f :: rest => some (pickBestFrom r f rest)

/-- Modelled from the spec: Evict selects the best victim among the evictable
    frames and removes it from the eligible set and from tracking; none when the
    eligible set is empty. -/
def replacerEvict (r : ReplacerState) : Option (Nat × ReplacerState) :=
  match pickBest r r.evictable with
  | none => none
  | some v =>
      some (v, { r with evictable := r.evictable.filter (fun g => g != v),
                        hist := r.hist.filter (fun e => e.1 != v) })

/-- Modelled from the spec: Remove unconditionally drops a frame from tracking and
    from the eligible set. -/
def replacerRemove (r : ReplacerState) (f : Nat) : ReplacerState :=
  { r with evictable := r.evictable.filter (fun g => g != f),
           hist := r.hist.filter (fun e => e.1 != f) }

/-- the buffer pool manager state: pool size, frame array, page table, free list,
    replacer state and allocation counter; diskWrites logs every WritePage call as
    a (page id, bytes) pair, in order. -/
structure BPM where
  poolSize : Nat
  frames : List Frame
  pageTable : List (Int × Nat)
  freeList : List Nat
  replacer : ReplacerState
  nextPageId : Int
  diskWrites : List (Int × List Int)
deriving DecidableEq

/-- page-table lookup: page_table_[k] after a count(k) check. -/
def ptLookup (pt : List (Int × Nat)) (k : Int) : Option Nat :=
  (pt.find? (fun e => e.1 == k)).map (fun e => e.2)

/-- page-table insert or overwrite: page_table_[k] = v on std::unordered_map. -/
def ptInsert (pt : List (Int × Nat)) (k : Int) (v : Nat) : List (Int × Nat) :=
  (k, v) :: pt.filter (fun e => e.1 != k)

/-- page-table erase: page_table_.erase(k). -/
def ptErase (pt : List (Int × Nat)) (k : Int) : List (Int × Nat) :=
  pt.filter (fun e => e.1 != k)

/-- BufferPoolManager::FlushPage (src/unnamed/part_000 lines 139-159): false when
    the id has no page-table entry or the target frame holds INVALID_PAGE_ID, with
    no state change; otherwise writes the frame's current bytes to disk under the
    argument id and clears the frame's dirty flag, returning true. -/
def flushPage (s : BPM) (pid : Int) : BPM × Bool :=
  match ptLookup s.pageTable pid with
  | none => (s, false)
  | some f =>
      if (s.frames.getD f default).pageId = invalidPageId then (s, false)
      else
        ({ s with
            frames := s.frames.set f { s.frames.getD f default with isDirty := false },
            diskWrites := s.diskWrites ++ [(pid, (s.frames.getD f default).data)] }, true)

/-- common tail of NewPage in src/unnamed/part_000 (lines 71-83): AllocatePage,
    bind the new id to the frame with pin_count 1, install the page-table entry,
    mark the frame non-evictable, return the new id and frame. -/
def newPageBind (s : BPM) (f : Nat) : BPM × Option (Int × Nat) :=
  ({ s with nextPageId := s.nextPageId + 1,
            frames := s.frames.set f
              { s.frames.getD f default with pageId := s.nextPageId, pinCount := 1 },
            pageTable := ptInsert s.pageTable s.nextPageId f,
            replacer := setEvictable s.replacer f false }, some (s.nextPageId, f))

/-- BufferPoolManager::NewPage (src/unnamed/part_000 lines 37-84): take a frame
    from the free list, else evict a victim (writing it out first when dirty and
    aborting if that flush fails; the victim's frame is then fully reset, but its
    page-table entry is never erased); AllocatePage runs only after a frame has
    been obtained. -/
def newPage (s : BPM) : BPM × Option (Int × Nat) :=
  match s.freeList with
  | f :: rest => newPageBind { s with freeList := rest } f
  | [] =>
      match replacerEvict s.replacer with
      | none => (s, none)
      | some (f, rep) =>
          if (s.frames.getD f default).isDirty then
            match flushPage { s with replacer := rep } (s.frames.getD f default).pageId with
            | (s2, false) => (s2, none)
            | (s2, true) => newPageBind { s2 with frames := s2.frames.set f initFrame } f
          else
            newPageBind { s with replacer := rep, frames := s.frames.set f initFrame } f

/-- common tail of NewPage in src/src/buffer/buffer_pool_manager.cpp (lines
    72-82): bind the already-allocated id to the frame (pin_count untouched),
    install the page-table entry, mark the frame non-evictable. -/
def cppNewPageBind (npid : Int) (s : BPM) (f : Nat) : BPM × Option (Int × Nat) :=
  ({ s with frames := s.frames.set f { s.frames.getD f default with pageId := npid },
            pageTable := ptInsert s.pageTable npid f,
            replacer := setEvictable s.replacer f false }, some (npid, f))

/-- BufferPoolManager::NewPage (src/src/buffer/buffer_pool_manager.cpp lines
    37-83): AllocatePage runs first, before a frame is obtained (so the counter is
    consumed even when the call fails); the eviction-path reset sets pin_count to
    1, while the free-list path leaves pin_count untouched; the common tail
    (cppNewPageBind) binds only the page id. -/
def cppNewPage (s0 : BPM) : BPM × Option (Int × Nat) :=
  match s0.freeList with
  | f :: rest =>
      cppNewPageBind s0.nextPageId
        { s0 with nextPageId := s0.nextPageId + 1, freeList := rest } f
  | [] =>
      match replacerEvict s0.replacer with
      | none => ({ s0 with nextPageId := s0.nextPageId + 1 }, none)
      | some (f, rep) =>
          if (s0.frames.getD f default).isDirty then
            match flushPage { s0 with nextPageId := s0.nextPageId + 1, replacer := rep }
                (s0.frames.getD f default).pageId with
            | (s2, false) => (s2, none)
            | (s2, true) =>
                cppNewPageBind s0.nextPageId
                  { s2 with frames := s2.frames.set f { initFrame with pinCount := 1 } } f
          else
            cppNewPageBind s0.nextPageId
              { s0 with nextPageId := s0.nextPageId + 1, replacer := rep,
                        frames := s0.frames.set f { initFrame with pinCount := 1 } } f

/-- BufferPoolManager::FetchPage (src/unnamed/part_000 lines 86-108): on a hit the
    pin count is incremented and nothing else changes; on a miss the code calls
    NewPage with the address of its own page_id argument — which overwrites the
    requested id with a freshly allocated one — and then issues ReadPage for that
    id.  The disk collaborator is the function argument (spec section 6: ReadPage
    yields bytes or IOError, modelled as Option); the code never inspects the read
    outcome, so a failed read simply leaves the frame bytes unchanged.  Returns the
    bound page id and frame index of the returned Page. -/
def fetchPage (disk : Int → Option (List Int)) (s : BPM) (pid : Int) :
    BPM × Option (Int × Nat) :=
  match ptLookup s.pageTable pid with
  | some f =>
      let fr := s.frames.getD f default
      ({ s with frames := s.frames.set f { fr with pinCount := fr.pinCount + 1 } },
       some (pid, f))
  | none =>
      match newPage s with
      | (s1, none) => (s1, none)
      | (s1, some (npid, f)) =>
          match disk npid with
          | some bytes =>
              let fr := s1.frames.getD f default
              ({ s1 with frames := s1.frames.set f { fr with data := bytes } },
               some (npid, f))
          | none => (s1, some (npid, f))

/-- BufferPoolManager::UnpinPage (src/unnamed/part_000 lines 110-137): false with
    no state change when the id has no page-table entry or the frame's pin count is
    not positive; otherwise decrements the pin count, marks the frame evictable
    exactly when the count reaches zero, and sets the dirty flag when is_dirty. -/
def unpinPage (s : BPM) (pid : Int) (isDirty : Bool) : BPM × Bool :=
  match ptLookup s.pageTable pid with
  | none => (s, false)
  | some f =>
      if (s.frames.getD f default).pinCount ≤ 0 then (s, false)
      else
        ({ s with
            frames := s.frames.set f
              { s.frames.getD f default with
                  pinCount := (s.frames.getD f default).pinCount - 1,
                  isDirty := if isDirty then true else (s.frames.getD f default).isDirty },
            replacer := if (s.frames.getD f default).pinCount - 1 = 0
                        then setEvictable s.replacer f true
                        else s.replacer }, true)

/-- BufferPoolManager::DeletePage (src/unnamed/part_000 lines 170-194): trivially
    true when the id has no page-table entry; false when the frame is pinned;
    otherwise removes the frame from replacer tracking, erases the entry, pushes
    the frame onto the free list and fully resets it. -/
def deletePage (s : BPM) (pid : Int) : BPM × Bool :=
  match ptLookup s.pageTable pid with
  | none => (s, true)
  | some f =>
      if (s.frames.getD f default).pinCount > 0 then (s, false)
      else
        ({ s with replacer := replacerRemove s.replacer f,
                  pageTable := ptErase s.pageTable pid,
                  freeList := s.freeList ++ [f],
                  frames := s.frames.set f initFrame }, true)

/-- BufferPoolManager::FlushAllPages (src/unnamed/part_000 lines 161-168): calls
    FlushPage on the page id currently bound to each frame index, re-reading the
    frame on each iteration. -/
def flushAllPages (s : BPM) : BPM :=
  (List.range s.poolSize).foldl
    (fun acc i => (flushPage acc ((acc.frames.getD i default).pageId)).1) s

/-- BufferPoolManager constructor: n fresh frames, all on the free list in index
    order, empty page table, fresh LRU-K state with parameter k, allocation counter
    at zero (next_page_id_ starts at 0 in the header, outside src/). -/
def initBPM (n : Nat) (k : Nat) : BPM :=
  ⟨n, List.replicate n initFrame, [], List.range n, ⟨k, 0, [], []⟩, 0, []⟩

/-- page-table bijectivity (spec section 3): every entry targets an in-range frame
    whose bound id equals the key, and no two entries share a target frame. -/
def PTBijective (s : BPM) : Prop :=
  (∀ e ∈ s.pageTable, e.2 < s.frames.length ∧ (s.frames.getD e.2 default).pageId = e.1) ∧
  (∀ e ∈ s.pageTable, ∀ e2 ∈ s.pageTable, e.2 = e2.2 → e.1 = e2.1)

/-- consistency of the page table with the frame store: every entry points at an
    in-range frame whose bound id equals the (non-negative) key.  Spec section 7
    declares states violating this a fatal bookkeeping inconsistency. -/
def Consistent (s : BPM) : Prop :=
  ∀ e ∈ s.pageTable, e.2 < s.frames.length ∧
    (s.frames.getD e.2 default).pageId = e.1 ∧ 0 ≤ e.1

/-- every free-list frame index is in range and its frame is fully reset. -/
def FreeClean (s : BPM) : Prop :=
  ∀ f ∈ s.freeList, f < s.frames.length ∧ s.frames.getD f default = initFrame

/-- every replacer-eligible frame index is in range. -/
def EvictableInRange (s : BPM) : Prop :=
  ∀ f ∈ s.replacer.evictable, f < s.frames.length

instance (s : BPM) : Decidable (PTBijective s) := by
  unfold PTBijective
  infer_instance

instance (s : BPM) : Decidable (Consistent s) := by
  unfold Consistent
  infer_instance

instance (s : BPM) : Decidable (FreeClean s) := by
  unfold FreeClean
  infer_instance

instance (s : BPM) : Decidable (EvictableInRange s) := by
  unfold EvictableInRange
  infer_instance

/-- a one-frame pool, K = 2. -/
def M1 : BPM := initBPM 1 2

/-- M1 after NewPage: page 0 bound to frame 0, pinned. -/
def M1a : BPM := (newPage M1).1

/-- M1a after UnpinPage(0, false): page 0 resident, unpinned, evictable. -/
def M1b : BPM := (unpinPage M1a 0 false).1

/-- M1b after a second NewPage: page 0 evicted to make room for page 1. -/
def M1c : BPM := (newPage M1b).1

/-- M1b after FetchPage(0) on a hit: page 0 pinned again (pin count 1). -/
def M1f : BPM := (fetchPage (fun _ => none) M1b 0).1

/-- M1a after FetchPage(0) on a hit: page 0 with pin count 2. -/
def M7 : BPM := (fetchPage (fun _ => none) M1a 0).1

/-- first of two consecutive UnpinPage(0, false) calls on M7. -/
def M7u1 : BPM × Bool := unpinPage M7 0 false

/-- second of two consecutive UnpinPage(0, false) calls on M7. -/
def M7u2 : BPM × Bool := unpinPage M7u1.1 0 false

/-- a disk collaborator whose page p holds the single byte p, for every p. -/
def diskId : Int → Option (List Int) := fun pid => some [pid]

/-- FetchPage(7) on the fresh one-frame pool, every disk read succeeding. -/
def M2f : BPM × Option (Int × Nat) := fetchPage diskId M1 7

/-- FetchPage(7) on the fresh one-frame pool, every disk read failing. -/
def M4f : BPM × Option (Int × Nat) := fetchPage (fun _ => none) M1 7

example : M1a.pageTable = [(0, 0)] := by decide
example : (M1a.frames.getD 0 default).pinCount = 1 := by decide
example : M1b.replacer.evictable = [0] := by decide
example : M1c.pageTable = [(1, 0), (0, 0)] := by decide

/-- reading back the slot just written. -/
theorem getD_set_self {α : Type} [Inhabited α] (l : List α) (n : Nat) (a : α)
    (h : n < l.length) : (l.set n a).getD n default = a := by
  rw [List.getD_eq_getElem?_getD, List.getElem?_set_eq_of_lt a h]
  rfl

/-- reading a different slot after a write. -/
theorem getD_set_ne {α : Type} [Inhabited α] (l : List α) (n m : Nat) (a : α)
    (h : n ≠ m) : (l.set n a).getD m default = l.getD m default := by
  rw [List.getD_eq_getElem?_getD, List.getElem?_set_ne h, List.getD_eq_getElem?_getD]

/-- a default read out of range yields the default frame. -/
theorem getD_out_of_range {α : Type} [Inhabited α] (l : List α) (n : Nat)
    (h : l.length ≤ n) : l.getD n default = default := by
  rw [List.getD_eq_getElem?_getD, List.getElem?_eq_none h]
  rfl

/-- a successful page-table lookup comes from an entry of the table. -/
theorem ptLookup_mem (pt : List (Int × Nat)) (k : Int) (v : Nat)
    (h : ptLookup pt k = some v) : (k, v) ∈ pt := by
  unfold ptLookup at h
  cases hf : pt.find? (fun e => e.1 == k) with
  | none => rw [hf] at h; cases h
  | some e =>
      rw [hf] at h
      have hmem := List.mem_of_find?_eq_some hf
      have hp : (e.1 == k) = true := by
        have h2 := List.find?_some hf
        simpa using h2
      have hk : e.1 = k := eq_of_beq hp
      have hv : e.2 = v := by simpa using h
      have he : e = (k, v) := by
        cases e
        simp_all
      rwa [he] at hmem

/-- looking up the entry just inserted. -/
theorem ptLookup_insert_self (pt : List (Int × Nat)) (k : Int) (v : Nat) :
    ptLookup (ptInsert pt k v) k = some v := by
  unfold ptLookup ptInsert
  rw [List.find?_cons_of_pos _ (by simp)]
  rfl

/-- the scan result is the seed or one of the scanned candidates. -/
theorem pickBestFrom_mem (r : ReplacerState) (l : List Nat) :
    ∀ c, pickBestFrom r c l = c ∨ pickBestFrom r c l ∈ l := by
  induction l with
  | nil =>
      intro c
      left
      rfl
  | cons f rest ih =>
      intro c
      unfold pickBestFrom
      by_cases hb : betterVictim r f c
      · rw [if_pos hb]
        rcases ih f with h | h
        · right
          rw [h]
          exact List.mem_cons_self f rest
        · right
          exact List.mem_cons_of_mem f h
      · rw [if_neg hb]
        rcases ih c with h | h
        · left
          exact h
        · right
          exact List.mem_cons_of_mem f h

/-- a chosen victim is one of the candidates. -/
theorem pickBest_mem (r : ReplacerState) (l : List Nat) (v : Nat)
    (h : pickBest r l = some v) : v ∈ l := by
  cases l with
  | nil => cases h
  | cons f rest =>
      have hv : pickBestFrom r f rest = v := by simpa [pickBest] using h
      rcases pickBestFrom_mem r rest f with h2 | h2
      · rw [hv] at h2
        rw [h2]
        exact List.mem_cons_self f rest
      · rw [hv] at h2
        exact List.mem_cons_of_mem f h2

/-- the frame returned by Evict was in the eligible set. -/
theorem replacerEvict_mem (r : ReplacerState) (v : Nat) (r2 : ReplacerState)
    (h : replacerEvict r = some (v, r2)) : v ∈ r.evictable := by
  unfold replacerEvict at h
  cases hp : pickBest r r.evictable with
  | none => rw [hp] at h; cases h
  | some w =>
      rw [hp] at h
      have hw : w = v := by
        have := congrArg (fun o => Option.map Prod.fst o) h
        simpa using this
      rw [← hw]
      exact pickBest_mem r _ w hp

/-- FlushPage only touches frame contents and the disk-write log: the pool size,
    frame count, page table, free list, replacer state and allocation counter are
    unchanged. -/
theorem flushPage_skeleton (s : BPM) (pid : Int) :
    (flushPage s pid).1.poolSize = s.poolSize ∧
    (flushPage s pid).1.frames.length = s.frames.length ∧
    (flushPage s pid).1.pageTable = s.pageTable ∧
    (flushPage s pid).1.freeList = s.freeList ∧
    (flushPage s pid).1.replacer = s.replacer ∧
    (flushPage s pid).1.nextPageId = s.nextPageId := by
  unfold flushPage
  cases hpt : ptLookup s.pageTable pid with
  | none => exact ⟨rfl, rfl, rfl, rfl, rfl, rfl⟩
  | some f =>
      simp only [hpt]
      by_cases hi : (s.frames.getD f default).pageId = invalidPageId
      · rw [if_pos hi]
        exact ⟨rfl, rfl, rfl, rfl, rfl, rfl⟩
      · rw [if_neg hi]
        exact ⟨rfl, by simp, rfl, rfl, rfl, rfl⟩

/-- C1: refuted by the code — on a one-frame pool the trace NewPage;
    UnpinPage(0, false); NewPage ends with the evicted victim's page-table entry
    still present: the table maps both page 0 and page 1 to frame 0, the stale
    entry (0, 0) disagrees with the frame's bound id 1, and page-table
    bijectivity fails; the victim's entry was never removed when the frame was
    rebound. -/
theorem newPage_eviction_leaves_stale_entry :
    M1c.pageTable = [(1, 0), (0, 0)] ∧
    (M1c.frames.getD 0 default).pageId = 1 ∧
    ptLookup M1c.pageTable 0 = some 0 ∧
    ¬ PTBijective M1c := by
  refine ⟨by decide, by decide, by decide, ?_⟩
  intro h
  exact absurd ((h.1 (0, 0) (by decide)).2) (by decide)

/-- C2: refuted by the code — FetchPage(7) on a fresh one-frame pool (page 7 not
    resident, every disk read succeeding) allocates and binds the fresh id 0
    instead of 7: it returns the frame bound to page 0, reads page 0's bytes from
    disk, installs the entry 0 to frame 0, and leaves no entry for 7. -/
theorem fetchPage_miss_binds_fresh_id :
    M2f.2 = some (0, 0) ∧
    ptLookup M2f.1.pageTable 7 = none ∧
    ptLookup M2f.1.pageTable 0 = some 0 ∧
    (M2f.1.frames.getD 0 default).pageId = 0 ∧
    (M2f.1.frames.getD 0 default).data = [0] := by
  refine ⟨by decide, by decide, by decide, by decide, by decide⟩

/-- C3: refuted by the code — after NewPage; UnpinPage(0, false); FetchPage(0)
    on a one-frame pool, the hit path of FetchPage incremented the pin count to 1
    but never marked the frame non-evictable, so the Replacement Policy still
    lists frame 0 as eligible and Evict selects it while its pin count is
    positive. -/
theorem fetchPage_resident_leaves_frame_evictable :
    (M1f.frames.getD 0 default).pinCount = 1 ∧
    M1f.replacer.evictable = [0] ∧
    (replacerEvict M1f.replacer).map (fun e => e.1) = some 0 := by
  refine ⟨by decide, by decide, by decide⟩

/-- C4: refuted by the code — FetchPage(7) on a fresh one-frame pool with every
    disk read failing still returns a successfully bound frame (no IOError
    outcome exists in the code, which never inspects the read result): the free
    list stays empty, the page-table entry for the bound id remains installed,
    and the frame stays pinned. -/
theorem fetchPage_ignores_disk_read_failure :
    M4f.2 = some (0, 0) ∧
    M4f.1.freeList = [] ∧
    ptLookup M4f.1.pageTable 0 = some 0 ∧
    (M4f.1.frames.getD 0 default).pinCount = 1 := by
  refine ⟨by decide, by decide, by decide, by decide⟩

/-- C5 counterexample: the NewPage variant in
    src/src/buffer/buffer_pool_manager.cpp succeeds on the fresh one-frame pool,
    handing out frame 0 from the free list, yet leaves the frame's pin count at 0
    instead of the claimed 1. -/
theorem cppNewPage_freeList_pinCount_zero :
    (cppNewPage M1).2 = some (0, 0) ∧
    ((cppNewPage M1).1.frames.getD 0 default).pinCount = 0 := by
  refine ⟨by decide, by decide⟩

/-- C7 counterexample: after NewPage and a resident FetchPage(0) the page's pin
    count is 2, and two consecutive UnpinPage(0, false) calls with no intervening
    Fetch/Create both return true — the second call does not return false. -/
theorem unpinPage_second_call_can_succeed :
    (M7.frames.getD 0 default).pinCount = 2 ∧
    M7u1.2 = true ∧
    M7u2.2 = true := by
  refine ⟨by decide, by decide, by decide⟩

/-- C8 counterexample: in M1b page 0 is resident with pin count 0 and a clean
    frame, and UnpinPage(0, true) returns false without setting the dirty flag —
    so UnpinPage(p, true) does not set the dirty flag for every resident page. -/
theorem unpinPage_dirty_not_set_at_zero_pin :
    ptLookup M1b.pageTable 0 = some 0 ∧
    (M1b.frames.getD 0 default).pinCount = 0 ∧
    unpinPage M1b 0 true = (M1b, false) ∧
    ((unpinPage M1b 0 true).1.frames.getD 0 default).isDirty = false := by
  refine ⟨by decide, by decide, rfl, by decide⟩

/-- C10 counterexample: started from the same state the two NewPage versions do
    not produce the same final state — from the fresh one-frame pool they differ
    (the handed-out frame's pin count is 1 versus 0), and on the fully pinned
    pool M1a, where both fail, the part_000 version leaves the state unchanged
    while the cpp version consumes a page identifier from the allocation
    counter. -/
theorem newPage_versions_states_differ :
    (newPage M1).1 ≠ (cppNewPage M1).1 ∧
    newPage M1a = (M1a, none) ∧
    (cppNewPage M1a).1.nextPageId = M1a.nextPageId + 1 := by
  refine ⟨?_, rfl, by decide⟩
  intro h
  have h1 : ((newPage M1).1.frames.getD 0 default).pinCount = 1 := by decide
  rw [h] at h1
  exact absurd h1 (by decide)

/-- C9: DeletePage on a page id with no page-table entry returns true and leaves
    the entire manager state — page table, free list, replacer state, every
    frame's metadata and bytes, allocation counter and disk-write log —
    unchanged. -/
theorem deletePage_nonresident_noop (s : BPM) (pid : Int)
    (h : ptLookup s.pageTable pid = none) :
    deletePage s pid = (s, true) := by
  unfold deletePage
  rw [h]

/-- C9 witness: deleting the never-allocated page 42 on M1a is a successful
    no-op. -/
theorem deletePage_nonresident_noop_witness :
    deletePage M1a 42 = (M1a, true) :=
  deletePage_nonresident_noop M1a 42 (by decide)

/-- C6: on a consistent state FlushPage returns true for every resident page id —
    regardless of the frame's pin count — appending exactly one disk write of the
    bound frame's current bytes under that id and clearing the frame's dirty
    flag, touching nothing else; for an id with no page-table entry it returns
    false and the state is unchanged. -/
theorem flushPage_spec (s : BPM) (pid : Int) (hc : Consistent s) :
    (∀ f, ptLookup s.pageTable pid = some f →
        flushPage s pid =
          ({ s with
              frames := s.frames.set f { s.frames.getD f default with isDirty := false },
              diskWrites := s.diskWrites ++ [(pid, (s.frames.getD f default).data)] },
           true)) ∧
    (ptLookup s.pageTable pid = none → flushPage s pid = (s, false)) := by
  constructor
  · intro f hf
    have hmem := ptLookup_mem _ _ _ hf
    obtain ⟨hlen, hpg, hpos⟩ := hc _ hmem
    have hne : (s.frames.getD f default).pageId ≠ invalidPageId := by
      rw [hpg]
      intro he
      rw [he] at hpos
      exact absurd hpos (by decide)
    unfold flushPage
    simp only [hf]
    rw [if_neg hne]
  · intro h
    unfold flushPage
    rw [h]

/-- C6 witness: on M1a (page 0 resident and still pinned) FlushPage(0) writes the
    frame bytes and succeeds, while FlushPage(5) is a failing no-op. -/
theorem flushPage_spec_witness :
    flushPage M1a 0 =
      ({ M1a with
          frames := M1a.frames.set 0 { M1a.frames.getD 0 default with isDirty := false },
          diskWrites := M1a.diskWrites ++ [(0, (M1a.frames.getD 0 default).data)] },
       true) ∧
    flushPage M1a 5 = (M1a, false) :=
  ⟨(flushPage_spec M1a 0 (by decide)).1 0 (by decide),
   (flushPage_spec M1a 5 (by decide)).2 (by decide)⟩

/-- UnpinPage on an id with no page-table entry is a failing no-op. -/
theorem unpinPage_not_resident (s : BPM) (pid : Int) (d : Bool)
    (h : ptLookup s.pageTable pid = none) : unpinPage s pid d = (s, false) := by
  unfold unpinPage
  rw [h]

/-- UnpinPage on a frame whose pin count is not positive is a failing no-op. -/
theorem unpinPage_zero_pin (s : BPM) (pid : Int) (d : Bool) (f : Nat)
    (hf : ptLookup s.pageTable pid = some f)
    (hp : (s.frames.getD f default).pinCount ≤ 0) : unpinPage s pid d = (s, false) := by
  unfold unpinPage
  simp only [hf]
  rw [if_pos hp]

/-- UnpinPage on a positively pinned resident frame: the computed success state. -/
theorem unpinPage_success (s : BPM) (pid : Int) (d : Bool) (f : Nat)
    (hf : ptLookup s.pageTable pid = some f)
    (hp : ¬ (s.frames.getD f default).pinCount ≤ 0) :
    unpinPage s pid d =
      ({ s with
          frames := s.frames.set f
            { s.frames.getD f default with
                pinCount := (s.frames.getD f default).pinCount - 1,
                isDirty := if d then true else (s.frames.getD f default).isDirty },
          replacer := if (s.frames.getD f default).pinCount - 1 = 0
                      then setEvictable s.replacer f true
                      else s.replacer }, true) := by
  unfold unpinPage
  simp only [hf]
  rw [if_neg hp]

/-- UnpinPage never changes the page table. -/
theorem unpinPage_pageTable (s : BPM) (pid : Int) (d : Bool) :
    (unpinPage s pid d).1.pageTable = s.pageTable := by
  unfold unpinPage
  cases hpt : ptLookup s.pageTable pid with
  | none => rfl
  | some f =>
      simp only [hpt]
      by_cases hp : (s.frames.getD f default).pinCount ≤ 0
      · rw [if_pos hp]
      · rw [if_neg hp]

/-- C7 amended: UnpinPage returns false and leaves the whole state unchanged
    whenever the page id has no page-table entry or its frame's pin count is not
    positive; a pin count that was non-negative stays non-negative (in particular
    it never becomes negative); and when the frame's pin count is exactly 1, the
    second of two consecutive UnpinPage calls for the same page returns false. -/
theorem unpinPage_guards (s : BPM) (pid : Int) (d : Bool) :
    (ptLookup s.pageTable pid = none → unpinPage s pid d = (s, false)) ∧
    (∀ f, ptLookup s.pageTable pid = some f →
        (s.frames.getD f default).pinCount ≤ 0 → unpinPage s pid d = (s, false)) ∧
    (∀ g, 0 ≤ ((s.frames.getD g default).pinCount) →
        0 ≤ (((unpinPage s pid d).1.frames.getD g default).pinCount)) ∧
    (∀ f, ptLookup s.pageTable pid = some f →
        (s.frames.getD f default).pinCount = 1 →
        (unpinPage (unpinPage s pid d).1 pid d).2 = false) := by
  refine ⟨fun h => unpinPage_not_resident s pid d h,
          fun f hf hp => unpinPage_zero_pin s pid d f hf hp, ?_, ?_⟩
  · intro g hg
    unfold unpinPage
    cases hpt : ptLookup s.pageTable pid with
    | none => exact hg
    | some f =>
        simp only [hpt]
        by_cases hp : (s.frames.getD f default).pinCount ≤ 0
        · rw [if_pos hp]
          exact hg
        · rw [if_neg hp]
          by_cases hfg : f = g
          · subst hfg
            by_cases hlen : f < s.frames.length
            · simp only [getD_set_self _ _ _ hlen]
              omega
            · rw [List.set_eq_of_length_le (Nat.le_of_not_lt hlen)]
              exact hg
          · simp only [getD_set_ne _ _ _ _ hfg]
            exact hg
  · intro f hf hp1
    have hnot : ¬ (s.frames.getD f default).pinCount ≤ 0 := by
      rw [hp1]
      decide
    have hlen : f < s.frames.length := by
      by_contra hnl
      rw [getD_out_of_range _ _ (Nat.le_of_not_lt hnl)] at hp1
      exact absurd hp1 (by decide)
    have h1 := unpinPage_success s pid d f hf hnot
    have hpt1 : (unpinPage s pid d).1.pageTable = s.pageTable := unpinPage_pageTable s pid d
    have hfr1 : ((unpinPage s pid d).1.frames.getD f default).pinCount ≤ 0 := by
      rw [h1]
      simp only [getD_set_self _ _ _ hlen]
      rw [hp1]
      decide
    rw [unpinPage_zero_pin (unpinPage s pid d).1 pid d f (by rw [hpt1, hf]) hfr1]

/-- C7 witness: on M1 the never-resident page 9 unpins to a failing no-op; on M1b
    (pin count 0) the unpin is a failing no-op; on M1a (pin count 1) the second of
    two consecutive unpins returns false. -/
theorem unpinPage_guards_witness :
    unpinPage M1 9 false = (M1, false) ∧
    unpinPage M1b 0 true = (M1b, false) ∧
    (unpinPage (unpinPage M1a 0 false).1 0 false).2 = false :=
  ⟨(unpinPage_guards M1 9 false).1 (by decide),
   (unpinPage_guards M1b 0 true).2.1 0 (by decide) (by decide),
   (unpinPage_guards M1a 0 false).2.2.2 0 (by decide) (by decide)⟩

/-- C8 amended: for every resident page whose frame's pin count is positive,
    UnpinPage(p, true) sets the frame's dirty flag; and UnpinPage(q, false) never
    changes any frame's dirty flag — in particular it never clears one already
    set. -/
theorem unpinPage_dirty_sticky (s : BPM) (pid : Int) (f : Nat)
    (hf : ptLookup s.pageTable pid = some f)
    (hp : 0 < (s.frames.getD f default).pinCount) :
    ((unpinPage s pid true).1.frames.getD f default).isDirty = true ∧
    (∀ q : Int, ∀ g : Nat,
        ((unpinPage s q false).1.frames.getD g default).isDirty =
          (s.frames.getD g default).isDirty) := by
  constructor
  · have hnot : ¬ (s.frames.getD f default).pinCount ≤ 0 := by omega
    have hlen : f < s.frames.length := by
      by_contra hnl
      rw [getD_out_of_range _ _ (Nat.le_of_not_lt hnl)] at hp
      exact absurd hp (by decide)
    rw [unpinPage_success s pid true f hf hnot]
    simp only [getD_set_self _ _ _ hlen]
    simp
  · intro q g
    unfold unpinPage
    cases hpt : ptLookup s.pageTable q with
    | none => rfl
    | some f2 =>
        simp only [hpt]
        by_cases hp2 : (s.frames.getD f2 default).pinCount ≤ 0
        · rw [if_pos hp2]
        · rw [if_neg hp2]
          by_cases hfg : f2 = g
          · subst hfg
            by_cases hlen2 : f2 < s.frames.length
            · simp only [getD_set_self _ _ _ hlen2]
              simp
            · rw [List.set_eq_of_length_le (Nat.le_of_not_lt hlen2)]
          · simp only [getD_set_ne _ _ _ _ hfg]

/-- C8 witness: on M1a (page 0 resident, pin count 1) UnpinPage(0, true) sets the
    dirty flag, and on M1c UnpinPage(1, false) leaves frame 0's dirty flag as it
    was. -/
theorem unpinPage_dirty_sticky_witness :
    ((unpinPage M1a 0 true).1.frames.getD 0 default).isDirty = true ∧
    ((unpinPage M1c 1 false).1.frames.getD 0 default).isDirty =
      (M1c.frames.getD 0 default).isDirty :=
  ⟨(unpinPage_dirty_sticky M1a 0 0 (by decide) (by decide)).1,
   (unpinPage_dirty_sticky M1c 1 0 (by decide) (by decide)).2 1 0⟩

/-- marking a frame non-evictable removes it from the eligible set. -/
theorem setEvictable_false_not_mem (r : ReplacerState) (f : Nat) :
    f ∉ (setEvictable r f false).evictable := by
  simp [setEvictable, List.mem_filter]

/-- NewPage (part_000) with a non-empty free list pops its head and binds it. -/
theorem newPage_freeList_eq (s : BPM) (f : Nat) (rest : List Nat)
    (h : s.freeList = f :: rest) :
    newPage s = newPageBind { s with freeList := rest } f := by
  unfold newPage
  rw [h]

/-- NewPage (part_000) with an empty free list and no evictable victim fails
    without touching the state. -/
theorem newPage_busy (s : BPM) (h : s.freeList = [])
    (h2 : replacerEvict s.replacer = none) : newPage s = (s, none) := by
  unfold newPage
  rw [h, h2]

/-- NewPage (cpp variant) with a non-empty free list: the allocation counter is
    already consumed, then the head frame is bound. -/
theorem cppNewPage_freeList_eq (s : BPM) (f : Nat) (rest : List Nat)
    (h : s.freeList = f :: rest) :
    cppNewPage s =
      cppNewPageBind s.nextPageId
        { s with nextPageId := s.nextPageId + 1, freeList := rest } f := by
  unfold cppNewPage
  rw [h]

/-- NewPage (cpp variant) with an empty free list and no evictable victim fails,
    but has already consumed a page identifier. -/
theorem cppNewPage_busy (s : BPM) (h : s.freeList = [])
    (h2 : replacerEvict s.replacer = none) :
    cppNewPage s = ({ s with nextPageId := s.nextPageId + 1 }, none) := by
  unfold cppNewPage
  rw [h, h2]

/-- inverting a successful bind: the returned id is the pre-bind allocation
    counter, the returned frame is freshly bound with pin count 1 and reset
    contents (given the frame going in was reset), the entry is installed, and
    the frame is no longer evictable. -/
theorem newPageBind_inv (S : BPM) (f0 : Nat) (s1 : BPM) (pid : Int) (f : Nat)
    (h : newPageBind S f0 = (s1, some (pid, f)))
    (hlen : f0 < S.frames.length)
    (hinit : S.frames.getD f0 default = initFrame) :
    pid = S.nextPageId ∧
    s1.frames.getD f default =
      { pageId := pid, pinCount := 1, isDirty := false, data := zeroPage } ∧
    ptLookup s1.pageTable pid = some f ∧
    f ∉ s1.replacer.evictable := by
  unfold newPageBind at h
  rw [Prod.mk.injEq] at h
  obtain ⟨hs1, ho⟩ := h
  rw [Option.some.injEq, Prod.mk.injEq] at ho
  obtain ⟨hpid, hff⟩ := ho
  subst hff
  subst hpid
  subst hs1
  refine ⟨rfl, ?_, ptLookup_insert_self S.pageTable S.nextPageId f0,
          setEvictable_false_not_mem S.replacer f0⟩
  show (S.frames.set f0
      { S.frames.getD f0 default with pageId := S.nextPageId, pinCount := 1 }).getD
        f0 default = _
  rw [getD_set_self _ _ _ hlen, hinit]
  rfl

/-- C5 amended: for the part_000 NewPage, started from any state whose free-list
    frames are all fully reset and whose replacer-eligible frames are in range,
    every successful call — free-list path and eviction path alike — returns the
    freshly allocated page id bound to a frame with pin count 1, clean zeroed
    contents, the entry installed in the page table, and the frame marked
    non-evictable. -/
theorem newPage_success_postconditions (s : BPM)
    (hfree : FreeClean s) (hev : EvictableInRange s) :
    ∀ s1 pid f, newPage s = (s1, some (pid, f)) →
      pid = s.nextPageId ∧
      s1.frames.getD f default =
        { pageId := pid, pinCount := 1, isDirty := false, data := zeroPage } ∧
      ptLookup s1.pageTable pid = some f ∧
      f ∉ s1.replacer.evictable := by
  intro s1 pid f h
  unfold newPage at h
  split at h
  next f0 rest heq =>
    have hm : f0 ∈ s.freeList := by
      rw [heq]
      exact List.mem_cons_self f0 rest
    exact newPageBind_inv { s with freeList := rest } f0 s1 pid f h
      (hfree f0 hm).1 (hfree f0 hm).2
  next heq =>
    split at h
    next hev2 =>
      have hc := congrArg Prod.snd h
      simp at hc
    next f0 rep hev2 =>
      have hlen : f0 < s.frames.length := hev f0 (replacerEvict_mem s.replacer f0 rep hev2)
      split at h
      next hdirty =>
        split at h
        next s2 hflush =>
          have hc := congrArg Prod.snd h
          simp at hc
        next s2 hflush =>
          have hlen2 : s2.frames.length = s.frames.length := by
            have hsk := (flushPage_skeleton { s with replacer := rep }
                (s.frames.getD f0 default).pageId).2.1
            rw [hflush] at hsk
            exact hsk
          have hnext : s2.nextPageId = s.nextPageId := by
            have hsk := (flushPage_skeleton { s with replacer := rep }
                (s.frames.getD f0 default).pageId).2.2.2.2.2
            rw [hflush] at hsk
            exact hsk
          have hlen3 : f0 < (s2.frames.set f0 initFrame).length := by
            rw [List.length_set, hlen2]
            exact hlen
          have hlen2b : f0 < s2.frames.length := by
            rw [hlen2]
            exact hlen
          have hinit3 : (s2.frames.set f0 initFrame).getD f0 default = initFrame :=
            getD_set_self _ _ _ hlen2b
          have hres := newPageBind_inv { s2 with frames := s2.frames.set f0 initFrame }
            f0 s1 pid f h hlen3 hinit3
          exact ⟨by rw [hres.1]; exact hnext, hres.2.1, hres.2.2.1, hres.2.2.2⟩
      next hdirty =>
        have hlen3 : f0 < (s.frames.set f0 initFrame).length := by
          rw [List.length_set]
          exact hlen
        have hinit3 : (s.frames.set f0 initFrame).getD f0 default = initFrame :=
          getD_set_self _ _ _ hlen
        exact newPageBind_inv { s with replacer := rep, frames := s.frames.set f0 initFrame }
          f0 s1 pid f h hlen3 hinit3

/-- the fresh one-frame pool has a clean free list. -/
theorem M1_freeClean : FreeClean M1 := by
  intro f0 hm
  have h0 : f0 = 0 := by
    have hl : M1.freeList = [0] := rfl
    rw [hl] at hm
    simpa using hm
  subst h0
  exact ⟨by decide, rfl⟩

/-- C5 witness: on the fresh one-frame pool, where the free list is clean and the
    eligible set empty, NewPage succeeds with id 0 in frame 0 and the
    postconditions hold. -/
theorem newPage_success_postconditions_witness :
    (newPage M1).1.frames.getD 0 default =
      { pageId := 0, pinCount := 1, isDirty := false, data := zeroPage } ∧
    ptLookup (newPage M1).1.pageTable 0 = some 0 ∧
    0 ∉ (newPage M1).1.replacer.evictable := by
  have h := newPage_success_postconditions M1 M1_freeClean (by decide)
      (newPage M1).1 0 0 (by rfl)
  exact ⟨h.2.1, h.2.2.1, h.2.2.2⟩

/-- C10 amended: the two NewPage versions are not observationally equivalent;
    they differ in exactly the witnessed respects — when no frame can be obtained
    the part_000 version returns Busy leaving the state (in particular the
    allocation counter) unchanged while the cpp version additionally increments
    the allocation counter; and on the free-list path both return the same fresh
    page id and frame, but part_000 sets the frame's pin count to 1 while the cpp
    version leaves the frame's prior pin count. -/
theorem newPage_versions_differences (s : BPM) :
    (s.freeList = [] → replacerEvict s.replacer = none →
        newPage s = (s, none) ∧
        cppNewPage s = ({ s with nextPageId := s.nextPageId + 1 }, none)) ∧
    (∀ f rest, s.freeList = f :: rest →
        (newPage s).2 = some (s.nextPageId, f) ∧
        (cppNewPage s).2 = some (s.nextPageId, f) ∧
        (f < s.frames.length →
          ((newPage s).1.frames.getD f default).pinCount = 1 ∧
          ((cppNewPage s).1.frames.getD f default).pinCount =
            (s.frames.getD f default).pinCount)) := by
  constructor
  · intro h h2
    exact ⟨newPage_busy s h h2, cppNewPage_busy s h h2⟩
  · intro f rest hfl
    refine ⟨?_, ?_, ?_⟩
    · rw [newPage_freeList_eq s f rest hfl]
      rfl
    · rw [cppNewPage_freeList_eq s f rest hfl]
      rfl
    · intro hlen
      constructor
      · rw [newPage_freeList_eq s f rest hfl]
        exact congrArg Frame.pinCount
          (getD_set_self s.frames f
            { s.frames.getD f default with pageId := s.nextPageId, pinCount := 1 } hlen)
      · rw [cppNewPage_freeList_eq s f rest hfl]
        have hh : (cppNewPageBind s.nextPageId
            { s with nextPageId := s.nextPageId + 1, freeList := rest } f).1.frames.getD
              f default =
            { s.frames.getD f default with pageId := s.nextPageId } :=
          getD_set_self s.frames f
            { s.frames.getD f default with pageId := s.nextPageId } hlen
        rw [hh]

/-- C10 witness: on the fully pinned one-frame pool M1a the cpp version consumes
    a page identifier while failing, and on the fresh pool M1 the free-list frame
    is handed out with pin count 1 by part_000 but with its prior pin count
    (here 0) by the cpp version. -/
theorem newPage_versions_differences_witness :
    cppNewPage M1a = ({ M1a with nextPageId := M1a.nextPageId + 1 }, none) ∧
    ((newPage M1).1.frames.getD 0 default).pinCount = 1 ∧
    ((cppNewPage M1).1.frames.getD 0 default).pinCount =
      (M1.frames.getD 0 default).pinCount :=
  ⟨((newPage_versions_differences M1a).1 (by decide) (by decide)).2,
   (((newPage_versions_differences M1).2 0 [] (by decide)).2.2 (by decide)).1,
   (((newPage_versions_differences M1).2 0 [] (by decide)).2.2 (by decide)).2⟩
